import Mathlib

/-!
Shallow embedding of `src/server/auth.ts` of the repository: the NextAuth
`session` callback, the `createUser` event handler, and the GitHub provider's
`profile` mapping. External effects (the credits service and the Prisma store)
are modelled by an explicit environment; each run returns the ordered trace of
I/O calls it issued together with either the resulting session or the
JavaScript error that escaped the callback.
-/

/-- An idea row of the store, with the two relations the queries of
`auth.ts` filter on: its author and the users who saved it. -/
structure Idea where
  id : String
  authorId : String
  savedBy : List String
deriving DecidableEq

/-- The transfer representation of an idea attached to the session. -/
structure IdeaDto where
  idea : Idea
  saved : Bool
deriving DecidableEq

/-- Modelled from the spec: `ideaToIdeaDto` is imported from `@/utils/ideas`,
a file absent from the sources. The spec only says each fetched idea is
mapped "to a transfer representation"; we model the mapping as carrying the
idea together with the saved flag the callback passes. -/
def ideaToIdeaDto (idea : Idea) (saved : Bool) : IdeaDto :=
  { idea := idea, saved := saved }

/-- The `session.user` object after module augmentation: the custom fields
`id`, `credits`, `savedIdeas`, `ideas` plus the `DefaultSession` fields
`name`, `email`, `image`. -/
structure SessionUser where
  id : String
  name : Option String
  email : Option String
  image : Option String
  credits : Nat
  savedIdeas : List IdeaDto
  ideas : List IdeaDto
deriving DecidableEq

/-- The session payload: an optional user (the callback guards on
`session.user`) and the remaining `DefaultSession` field `expires`. -/
structure Session where
  user : Option SessionUser
  expires : String
deriving DecidableEq

/-- The adapter-provided database user passed to the `session` callback;
only its `id` is read. -/
structure DbUser where
  id : String
deriving DecidableEq

/-- One external I/O call issued by the callbacks, in issue order. -/
inductive Call where
  | balance (uid : String)
  | savedQuery (uid : String)
  | authoredQuery (uid : String)
  | reward (uid : String) (amount : Nat)
deriving DecidableEq

/-- A JavaScript error escaping a callback: either an exception thrown by an
awaited service/store call, or the TypeError raised by assigning a property
of `undefined`. -/
inductive JsError where
  | thrown (msg : String)
  | typeError
deriving DecidableEq

/-- The environment a run executes against: the ordered idea table, the
credits service (`balance`, `reward`), and flags making either store query
fail. -/
structure Env where
  db : List Idea
  balanceRes : String → Except String Nat
  rewardRes : String → Nat → Except String Unit
  savedFails : Bool
  authoredFails : Bool

/-- `prisma.idea.findMany({ take: 3, where: { savedBy: { some: { id } } } })`:
the first three rows of the table some saver of which is `uid`, unless the
store fails. -/
def findManySaved (env : Env) (uid : String) : Except String (List Idea) :=
  if env.savedFails then Except.error "saved query failed"
  else Except.ok ((env.db.filter (fun i => i.savedBy.contains uid)).take 3)

/-- `prisma.idea.findMany({ take: 3, where: { authorId } })`: the first three
rows of the table authored by `uid`, unless the store fails. -/
def findManyAuthored (env : Env) (uid : String) : Except String (List Idea) :=
  if env.authoredFails then Except.error "authored query failed"
  else Except.ok ((env.db.filter (fun i => i.authorId == uid)).take 3)

/-- The `session` callback of `authOptions.callbacks` (auth.ts lines 36-79).
The block assigning `id`, `credits` and `savedIdeas` is guarded by
`if (session.user)`; the authored-ideas query and the assignment to
`session.user.ideas` are outside the guard, so with no user present the
query still runs and the assignment raises a TypeError. Each awaited call
that fails makes the whole callback stop there with that error. -/
def sessionCallback (env : Env) (s : Session) (u : DbUser) :
    List Call × Except JsError Session :=
  match s.user with
  | some su =>
    match env.balanceRes u.id with
    | Except.error e => ([Call.balance u.id], Except.error (JsError.thrown e))
    | Except.ok bal =>
      match findManySaved env u.id with
      | Except.error e =>
          ([Call.balance u.id, Call.savedQuery u.id], Except.error (JsError.thrown e))
      | Except.ok savedList =>
        let su1 : SessionUser :=
          { su with
            id := u.id
            credits := bal
            savedIdeas := savedList.map (fun i => ideaToIdeaDto i true) }
        match findManyAuthored env u.id with
        | Except.error e =>
            ([Call.balance u.id, Call.savedQuery u.id, Call.authoredQuery u.id],
             Except.error (JsError.thrown e))
        | Except.ok authoredList =>
            ([Call.balance u.id, Call.savedQuery u.id, Call.authoredQuery u.id],
             Except.ok
               { s with
                 user := some
                   { su1 with ideas := authoredList.map (fun i => ideaToIdeaDto i false) } })
  | none =>
    match findManyAuthored env u.id with
    | Except.error e => ([Call.authoredQuery u.id], Except.error (JsError.thrown e))
    | Except.ok _ => ([Call.authoredQuery u.id], Except.error JsError.typeError)

/-- The `createUser` event handler (auth.ts lines 87-92): read the balance;
if it is falsy (zero), reward 3 credits. -/
def createUser (env : Env) (uid : String) : List Call × Except JsError Unit :=
  match env.balanceRes uid with
  | Except.error e => ([Call.balance uid], Except.error (JsError.thrown e))
  | Except.ok bal =>
    if bal == 0 then
      match env.rewardRes uid 3 with
      | Except.error e =>
          ([Call.balance uid, Call.reward uid 3], Except.error (JsError.thrown e))
      | Except.ok _ => ([Call.balance uid, Call.reward uid 3], Except.ok ())
    else ([Call.balance uid], Except.ok ())

/-- The raw GitHub OAuth profile fields the provider's `profile` function
reads. `name` and the other optional fields may be null. -/
structure GitHubProfile where
  id : Int
  login : String
  name : Option String
  email : Option String
  avatar_url : Option String
deriving DecidableEq

/-- The user object the provider's `profile` function returns. -/
structure ProviderUser where
  id : String
  name : String
  email : Option String
  image : Option String
deriving DecidableEq

/-- JavaScript truthiness of a nullable string: null and the empty string
are falsy. -/
def jsTruthy : Option String → Bool
  | none => false
  | some s => s != ""

/-- The GitHub provider's `profile` mapping (auth.ts lines 99-106):
`profile.id.toString()`, `profile.name || profile.login`, and the email and
avatar taken directly. -/
def githubProfile (p : GitHubProfile) : ProviderUser :=
  { id := toString p.id
    name :=
      match p.name with
      | some s => if s == "" then p.login else s
      | none => p.login
    email := p.email
    image := p.avatar_url }

/-- Concrete idea saved and authored by user u1, for witnesses. -/
def ideaW1 : Idea := { id := "i1", authorId := "u1", savedBy := ["u1", "u2"] }

/-- Concrete idea belonging to another user, for witnesses. -/
def ideaW2 : Idea := { id := "i2", authorId := "u2", savedBy := [] }

/-- Concrete healthy environment, for witnesses. -/
def envW : Env :=
  { db := [ideaW1, ideaW2]
    balanceRes := fun _ => Except.ok 5
    rewardRes := fun _ _ => Except.ok ()
    savedFails := false
    authoredFails := false }

/-- Concrete environment whose credits service reports a zero balance. -/
def envW0 : Env := { envW with balanceRes := fun _ => Except.ok 0 }

/-- Concrete environment whose credits service is down. -/
def envWerr : Env := { envW with balanceRes := fun _ => Except.error "credits down" }

/-- Concrete environment with a zero balance and a failing reward call. -/
def envWreward : Env :=
  { envW0 with rewardRes := fun _ _ => Except.error "reward down" }

/-- Concrete environment whose authored-ideas query fails. -/
def envWqerr : Env := { envW with authoredFails := true }

/-- Concrete session user carrying a stale id, for witnesses. -/
def suW : SessionUser :=
  { id := "stale"
    name := some "Alice"
    email := some "alice@example.com"
    image := none
    credits := 0
    savedIdeas := []
    ideas := [] }

/-- Concrete session with a user present, for witnesses. -/
def sW : Session := { user := some suW, expires := "2026-01-01T00:00:00Z" }

/-- Concrete session with no user, for witnesses. -/
def sWnone : Session := { user := none, expires := "2026-01-01T00:00:00Z" }

/-- Concrete adapter user, for witnesses. -/
def uW : DbUser := { id := "u1" }

/-- Concrete GitHub profile with a null name, for witnesses. -/
def ghW : GitHubProfile :=
  { id := 583231
    login := "octocat"
    name := none
    email := some "octocat@github.com"
    avatar_url := some "https://avatars.example/583231" }

/-- Shared characterization of a successful run of the session callback:
with a user present, a responding credits service and both store queries
healthy, the run issues exactly the three calls in order and returns the
session with the four custom user fields updated. -/
theorem sessionCallback_ok_eq (env : Env) (s : Session) (su : SessionUser) (u : DbUser)
    (bal : Nat) (hsu : s.user = some su) (hb : env.balanceRes u.id = Except.ok bal)
    (hs : env.savedFails = false) (ha : env.authoredFails = false) :
    sessionCallback env s u =
      ([Call.balance u.id, Call.savedQuery u.id, Call.authoredQuery u.id],
       Except.ok
         { s with
           user := some
             { su with
               id := u.id
               credits := bal
               savedIdeas := ((env.db.filter (fun i => i.savedBy.contains u.id)).take 3).map
                 (fun i => ideaToIdeaDto i true)
               ideas := ((env.db.filter (fun i => i.authorId == u.id)).take 3).map
                 (fun i => ideaToIdeaDto i false) } }) := by
  simp only [sessionCallback, hsu, hb, findManySaved, findManyAuthored, hs, ha,
    Bool.false_eq_true, if_false]

/-- C1: for every createUser event, the handler first reads the balance and
issues a single reward of exactly 3 credits if and only if that balance is
zero; no reward call is issued when the balance is non-zero. -/
theorem createUser_rewards_iff_zero (env : Env) (uid : String) (bal : Nat)
    (hb : env.balanceRes uid = Except.ok bal) :
    (createUser env uid).1 =
      [Call.balance uid] ++ (if bal = 0 then [Call.reward uid 3] else []) := by
  by_cases h : bal = 0
  · subst h
    cases henv : env.rewardRes uid 3 <;> simp [createUser, hb, henv]
  · simp [createUser, hb, h]

/-- C1 witness: with a zero starting balance the handler issues the balance
read followed by the single 3-credit reward. -/
theorem createUser_rewards_iff_zero_witness :
    (createUser envW0 "u1").1 =
      [Call.balance "u1"] ++ (if 0 = 0 then [Call.reward "u1" 3] else []) :=
  createUser_rewards_iff_zero envW0 "u1" 0 rfl

/-- C2: whenever the session has a user and the run succeeds, the returned
session's user.credits equals the value the credits service returned for the
adapter user's id. -/
theorem session_credits_eq_balance (env : Env) (s : Session) (su : SessionUser)
    (u : DbUser) (bal : Nat) (hsu : s.user = some su)
    (hb : env.balanceRes u.id = Except.ok bal) (hs : env.savedFails = false)
    (ha : env.authoredFails = false) :
    ∃ su2, (sessionCallback env s u).2 = Except.ok { s with user := some su2 } ∧
      su2.credits = bal :=
  ⟨_, congrArg Prod.snd (sessionCallback_ok_eq env s su u bal hsu hb hs ha), rfl⟩

/-- C2 witness: on the concrete healthy environment the hydrated user's
credits equal the balance 5 the service reports. -/
theorem session_credits_eq_balance_witness :
    ∃ su2, (sessionCallback envW sW uW).2 = Except.ok { sW with user := some su2 } ∧
      su2.credits = 5 :=
  session_credits_eq_balance envW sW suW uW 5 rfl rfl rfl rfl

/-- C3: on a successful run with a user present, the returned savedIdeas
list has at most 3 entries, all saved by the adapter user, and the returned
ideas list has at most 3 entries, all authored by the adapter user. -/
theorem session_lists_bounded_filtered (env : Env) (s : Session) (su : SessionUser)
    (u : DbUser) (bal : Nat) (hsu : s.user = some su)
    (hb : env.balanceRes u.id = Except.ok bal) (hs : env.savedFails = false)
    (ha : env.authoredFails = false) :
    ∃ su2, (sessionCallback env s u).2 = Except.ok { s with user := some su2 } ∧
      su2.savedIdeas.length ≤ 3 ∧ (∀ d ∈ su2.savedIdeas, u.id ∈ d.idea.savedBy) ∧
      su2.ideas.length ≤ 3 ∧ (∀ d ∈ su2.ideas, d.idea.authorId = u.id) := by
  refine ⟨_, congrArg Prod.snd (sessionCallback_ok_eq env s su u bal hsu hb hs ha),
    ?_, ?_, ?_, ?_⟩
  · simp
  · intro d hd
    simp only [List.mem_map] at hd
    obtain ⟨i, hi, rfl⟩ := hd
    have hi2 : i ∈ env.db.filter (fun i => i.savedBy.contains u.id) :=
      List.take_subset 3 _ hi
    have hp := List.of_mem_filter hi2
    simpa [ideaToIdeaDto] using hp
  · simp
  · intro d hd
    simp only [List.mem_map] at hd
    obtain ⟨i, hi, rfl⟩ := hd
    have hi2 : i ∈ env.db.filter (fun i => i.authorId == u.id) :=
      List.take_subset 3 _ hi
    have hp := List.of_mem_filter hi2
    simpa [ideaToIdeaDto] using hp

/-- C3 witness: on the concrete store the hydrated lists are bounded by 3
and respect the savedBy and authorId filters. -/
theorem session_lists_bounded_filtered_witness :
    ∃ su2, (sessionCallback envW sW uW).2 = Except.ok { sW with user := some su2 } ∧
      su2.savedIdeas.length ≤ 3 ∧ (∀ d ∈ su2.savedIdeas, uW.id ∈ d.idea.savedBy) ∧
      su2.ideas.length ≤ 3 ∧ (∀ d ∈ su2.ideas, d.idea.authorId = uW.id) :=
  session_lists_bounded_filtered envW sW suW uW 5 rfl rfl rfl rfl

/-- C4: on a successful run with a user present, every idea returned by the
saved query is attached as ideaToIdeaDto applied with the flag true, and
every idea returned by the authored query as ideaToIdeaDto with false. -/
theorem session_dto_flags (env : Env) (s : Session) (su : SessionUser)
    (u : DbUser) (bal : Nat) (hsu : s.user = some su)
    (hb : env.balanceRes u.id = Except.ok bal) (hs : env.savedFails = false)
    (ha : env.authoredFails = false) :
    ∃ su2, (sessionCallback env s u).2 = Except.ok { s with user := some su2 } ∧
      su2.savedIdeas = ((env.db.filter (fun i => i.savedBy.contains u.id)).take 3).map
        (fun i => ideaToIdeaDto i true) ∧
      su2.ideas = ((env.db.filter (fun i => i.authorId == u.id)).take 3).map
        (fun i => ideaToIdeaDto i false) :=
  ⟨_, congrArg Prod.snd (sessionCallback_ok_eq env s su u bal hsu hb hs ha), rfl, rfl⟩

/-- C4 witness: on the concrete store the saved idea carries the flag true
and the authored idea the flag false. -/
theorem session_dto_flags_witness :
    ∃ su2, (sessionCallback envW sW uW).2 = Except.ok { sW with user := some su2 } ∧
      su2.savedIdeas = ((envW.db.filter (fun i => i.savedBy.contains uW.id)).take 3).map
        (fun i => ideaToIdeaDto i true) ∧
      su2.ideas = ((envW.db.filter (fun i => i.authorId == uW.id)).take 3).map
        (fun i => ideaToIdeaDto i false) :=
  session_dto_flags envW sW suW uW 5 rfl rfl rfl rfl

/-- C5: no local error handling, at any of the five failure sites. A failing
balance call stops the session callback, and likewise the createUser handler,
at that single call, the error propagating with no further store or credits
call and no session returned; a failing saved query stops the callback after
the two calls made so far; a failing authored query with a user present stops
it after all three; a failing reward call in createUser propagates after the
balance read and the reward attempt; and a failing authored query with no
user present propagates from the single unguarded query. -/
theorem session_errors_propagate (env : Env) (s : Session) (u : DbUser) (e : String) :
    (∀ su, s.user = some su → env.balanceRes u.id = Except.error e →
       sessionCallback env s u = ([Call.balance u.id], Except.error (JsError.thrown e)))
    ∧ (env.balanceRes u.id = Except.error e →
       createUser env u.id = ([Call.balance u.id], Except.error (JsError.thrown e)))
    ∧ (∀ su bal, s.user = some su → env.balanceRes u.id = Except.ok bal →
       env.savedFails = true →
       sessionCallback env s u =
         ([Call.balance u.id, Call.savedQuery u.id],
          Except.error (JsError.thrown "saved query failed")))
    ∧ (∀ su bal, s.user = some su → env.balanceRes u.id = Except.ok bal →
       env.savedFails = false → env.authoredFails = true →
       sessionCallback env s u =
         ([Call.balance u.id, Call.savedQuery u.id, Call.authoredQuery u.id],
          Except.error (JsError.thrown "authored query failed")))
    ∧ (env.balanceRes u.id = Except.ok 0 → env.rewardRes u.id 3 = Except.error e →
       createUser env u.id =
         ([Call.balance u.id, Call.reward u.id 3], Except.error (JsError.thrown e)))
    ∧ (s.user = none → env.authoredFails = true →
       sessionCallback env s u =
         ([Call.authoredQuery u.id],
          Except.error (JsError.thrown "authored query failed"))) := by
  refine ⟨fun su hsu hb => ?_, fun hb => ?_, fun su bal hsu hb hsf => ?_,
    fun su bal hsu hb hsf haf => ?_, fun hb hr => ?_, fun hsu haf => ?_⟩
  · simp [sessionCallback, hsu, hb]
  · simp [createUser, hb]
  · simp [sessionCallback, hsu, hb, findManySaved, hsf]
  · simp [sessionCallback, hsu, hb, findManySaved, findManyAuthored, hsf, haf]
  · simp [createUser, hb, hr]
  · simp [sessionCallback, hsu, findManyAuthored, haf]

/-- C5 witness: with the credits service down both handlers stop at the
single balance call; with a failing reward the handler stops after the
balance read and the reward attempt; with a failing authored query and no
user the callback stops at the single unguarded query. -/
theorem session_errors_propagate_witness :
    sessionCallback envWerr sW uW =
      ([Call.balance "u1"], Except.error (JsError.thrown "credits down")) ∧
    createUser envWerr "u1" =
      ([Call.balance "u1"], Except.error (JsError.thrown "credits down")) ∧
    createUser envWreward "u1" =
      ([Call.balance "u1", Call.reward "u1" 3],
       Except.error (JsError.thrown "reward down")) ∧
    sessionCallback envWqerr sWnone uW =
      ([Call.authoredQuery "u1"],
       Except.error (JsError.thrown "authored query failed")) :=
  ⟨(session_errors_propagate envWerr sW uW "credits down").1 suW rfl rfl,
   (session_errors_propagate envWerr sW uW "credits down").2.1 rfl,
   (session_errors_propagate envWreward sW uW "reward down").2.2.2.2.1 rfl rfl,
   (session_errors_propagate envWqerr sWnone uW "unused").2.2.2.2.2 rfl rfl⟩

/-- C6: on a successful run with a user present, only the user fields id,
credits, savedIdeas and ideas change: the session's expires and the user's
name, email and image come back unchanged. -/
theorem session_frame_preserved (env : Env) (s : Session) (su : SessionUser)
    (u : DbUser) (bal : Nat) (hsu : s.user = some su)
    (hb : env.balanceRes u.id = Except.ok bal) (hs : env.savedFails = false)
    (ha : env.authoredFails = false) :
    ∃ s2, (sessionCallback env s u).2 = Except.ok s2 ∧ s2.expires = s.expires ∧
      ∃ su2, s2.user = some su2 ∧ su2.name = su.name ∧ su2.email = su.email ∧
        su2.image = su.image :=
  ⟨_, congrArg Prod.snd (sessionCallback_ok_eq env s su u bal hsu hb hs ha),
    rfl, _, rfl, rfl, rfl, rfl⟩

/-- C6 witness: on the concrete run the expires stamp and the user's name,
email and image are those of the input session. -/
theorem session_frame_preserved_witness :
    ∃ s2, (sessionCallback envW sW uW).2 = Except.ok s2 ∧ s2.expires = sW.expires ∧
      ∃ su2, s2.user = some su2 ∧ su2.name = suW.name ∧ su2.email = suW.email ∧
        su2.image = suW.image :=
  session_frame_preserved envW sW suW uW 5 rfl rfl rfl rfl

/-- C7: every successful run with a user present issues exactly three fresh
I/O calls, in order: the balance read, then the saved-ideas query, then the
authored-ideas query. -/
theorem session_trace_order (env : Env) (s : Session) (su : SessionUser)
    (u : DbUser) (bal : Nat) (hsu : s.user = some su)
    (hb : env.balanceRes u.id = Except.ok bal) (hs : env.savedFails = false)
    (ha : env.authoredFails = false) :
    (sessionCallback env s u).1 =
      [Call.balance u.id, Call.savedQuery u.id, Call.authoredQuery u.id] :=
  congrArg Prod.fst (sessionCallback_ok_eq env s su u bal hsu hb hs ha)

/-- C7 witness: the concrete run issues exactly the balance read, saved
query and authored query, in that order. -/
theorem session_trace_order_witness :
    (sessionCallback envW sW uW).1 =
      [Call.balance "u1", Call.savedQuery "u1", Call.authoredQuery "u1"] :=
  session_trace_order envW sW suW uW 5 rfl rfl rfl rfl

/-- C8: with no user on the session, the callback still issues the
authored-ideas query (it sits outside the guard) and then fails with a
TypeError assigning session.user.ideas, instead of returning the session
unchanged. -/
theorem session_missing_user_typeerror (env : Env) (s : Session) (u : DbUser)
    (hsu : s.user = none) (ha : env.authoredFails = false) :
    sessionCallback env s u =
      ([Call.authoredQuery u.id], Except.error JsError.typeError) := by
  simp [sessionCallback, hsu, findManyAuthored, ha]

/-- C8 witness: on the concrete userless session the callback issues the
authored query and raises the TypeError. -/
theorem session_missing_user_typeerror_witness :
    sessionCallback envW sWnone uW =
      ([Call.authoredQuery "u1"], Except.error JsError.typeError) :=
  session_missing_user_typeerror envW sWnone uW rfl rfl

/-- C9: the GitHub provider profile mapping stringifies the numeric id, uses
profile.name when truthy and profile.login otherwise, and passes email and
avatar_url through unchanged. -/
theorem githubProfile_mapping (p : GitHubProfile) :
    (githubProfile p).id = toString p.id
    ∧ (jsTruthy p.name = true → some (githubProfile p).name = p.name)
    ∧ (jsTruthy p.name = false → (githubProfile p).name = p.login)
    ∧ (githubProfile p).email = p.email
    ∧ (githubProfile p).image = p.avatar_url := by
  refine ⟨rfl, ?_, ?_, rfl, rfl⟩
  · intro h
    cases hn : p.name with
    | none => simp [jsTruthy, hn] at h
    | some s =>
      rw [hn] at h
      simp only [jsTruthy, ne_eq, bne_iff_ne] at h
      simp [githubProfile, hn, h]
  · intro h
    cases hn : p.name with
    | none => simp [githubProfile, hn]
    | some s =>
      rw [hn] at h
      simp only [jsTruthy, bne_eq_false_iff_eq] at h
      simp [githubProfile, hn, h]

/-- C9 witness: a profile with a null name falls back to the login. -/
theorem githubProfile_mapping_witness :
    jsTruthy ghW.name = false ∧ (githubProfile ghW).name = ghW.login :=
  ⟨rfl, (githubProfile_mapping ghW).2.2.1 rfl⟩

/-- C10: on a successful run with a user present, the returned session
user's id is the adapter-provided database user's id, whatever id the
session user carried before. -/
theorem session_id_overwritten (env : Env) (s : Session) (su : SessionUser)
    (u : DbUser) (bal : Nat) (hsu : s.user = some su)
    (hb : env.balanceRes u.id = Except.ok bal) (hs : env.savedFails = false)
    (ha : env.authoredFails = false) :
    ∃ su2, (sessionCallback env s u).2 = Except.ok { s with user := some su2 } ∧
      su2.id = u.id :=
  ⟨_, congrArg Prod.snd (sessionCallback_ok_eq env s su u bal hsu hb hs ha), rfl⟩

/-- C10 witness: the concrete session carried the stale id and comes back
with the adapter user's id u1. -/
theorem session_id_overwritten_witness :
    ∃ su2, (sessionCallback envW sW uW).2 = Except.ok { sW with user := some su2 } ∧
      su2.id = uW.id :=
  session_id_overwritten envW sW suW uW 5 rfl rfl rfl rfl
